import Mathlib

/-!
Shallow embedding of the Array2D library (src/array2D.py) and verification
of its specification claims.

The Python library has three pieces:
  * `Direction` — a four-value enum;
  * `Point` — a coordinate plus an arbitrary data payload (default `None`);
  * `Array2D` — a dictionary-backed grid mapping every coordinate of a
    `cols × rows` rectangle to a payload.

Modelling decisions, all driven by the Python source:
  * Python `None` is a first-class payload value (Point data defaults to it,
    `getData` returns it both for stored `None` and for out-of-range reads),
    so a payload is modelled as `Option α` with `none` playing Python `None`.
  * The grid's `_matrix` dict is modelled as an association list that keeps
    Python-dict semantics: insertion order is preserved, assignment to an
    existing key updates it in place, assignment to a fresh key appends.
    This matters because `Array2D.loadFrom` performs a raw dict assignment,
    which in Python silently inserts a fresh key, and because iteration order
    is the dict's insertion order.
  * A `warn(...)` call is modelled by a `Bool` (or a count where the claim is
    about the number of warnings) returned alongside the result.
  * A `raise` is modelled by `Except.error`.
  * Python's dynamically-typed arguments (`tuple | list[tuple] | anything`)
    are modelled by small inductive argument types whose constructors match
    the `isinstance` checks the source performs.
  * Python `%` on ints with a positive modulus agrees with Lean's `Int.emod`
    (`%` on `Int`): both give the representative in `[0, modulus)`.
-/

namespace A2D

/-- The four cardinal directions (Python `Direction` enum).  A Python call
site may also pass a non-direction value, which the `match` statements send
to their `case _` branch; that is modelled by `Option Direction` with `none`
for the invalid/missing value. -/
inductive Direction
  | up
  | down
  | left
  | right
deriving DecidableEq

/-- Python `Point`: an (x, y) pair plus a payload (`None` by default). -/
structure Point (α : Type) where
  xyPair : Int × Int
  data : Option α
deriving DecidableEq

/-- Python `Array2D`'s attributes: `_rows`, `_cols`, `_wrapX`, `_wrapY` and
the backing dict `_matrix`, as an insertion-ordered association list. -/
structure Array2D (α : Type) where
  rows : Int
  cols : Int
  wrapX : Bool
  wrapY : Bool
  matrix : List ((Int × Int) × Option α)
deriving DecidableEq

/-- Python dict read `m[k]` guarded by `KeyError`: `some v` when the key is
present, `none` when the lookup would raise.  (A Python dict never holds a
key twice, so first-match lookup on the association list is exact.) -/
def dictGet? : List ((Int × Int) × β) → (Int × Int) → Option β
  | [], _ => none
  | p :: m, k => if p.1 = k then some p.2 else dictGet? m k

/-- Python `k in m`. -/
def dictContains : List ((Int × Int) × β) → (Int × Int) → Bool
  | [], _ => false
  | p :: m, k => if p.1 = k then true else dictContains m k

/-- Python dict assignment `m[k] = v`: updates the entry in place when the
key exists, otherwise appends a fresh entry (insertion order preserved). -/
def dictSet : List ((Int × Int) × β) → (Int × Int) → β → List ((Int × Int) × β)
  | [], k, v => [(k, v)]
  | p :: m, k, v => if p.1 = k then (k, v) :: m else p :: dictSet m k v

/-- The key order produced by the dict comprehension in `Array2D.__init__`:
`{(i,j): defaultData for j in range(rows) for i in range(cols)}` — the row
index `j` is the outer loop, so keys come out row-major. -/
def rowMajorCoords (cols rows : Int) : List (Int × Int) :=
  (List.range rows.toNat).flatMap (fun (j : Nat) =>
    (List.range cols.toNat).map (fun (i : Nat) => ((i : Int), (j : Int))))

/-- Python `Array2D.__init__(cols, rows, defaultData, wrapX, wrapY)`: raises when
`cols < 1 or rows < 1`, otherwise builds the fully populated mapping. -/
def Array2D.mk? (cols rows : Int) (defaultData : Option α)
    (wrapX wrapY : Bool) : Except String (Array2D α) :=
  if cols < 1 ∨ rows < 1 then
    .error "Cannot initiate an Array2D with less than 1 row and/or column"
  else
    .ok { rows := rows, cols := cols, wrapX := wrapX, wrapY := wrapY,
          matrix := (rowMajorCoords cols rows).map (fun c => (c, defaultData)) }

/-- The tuple branch of `Array2D.getData`: `return self._matrix[xyPair]`,
with `except KeyError: warn(...); return None`.  Result is the payload
(`none` both for a stored `None` and for the out-of-range case, exactly as
in Python) together with the warned flag. -/
def Array2D.getData1 (g : Array2D α) (c : Int × Int) : Option α × Bool :=
  match dictGet? g.matrix c with
  | some v => (v, false)
  | none => (none, true)

/-- The dynamically-typed coordinate argument of `Array2D.getData` /
`Array2D.setData`.  `coord` is the `isinstance(xyPair, tuple)` case,
`coordList` the well-formed-list case (`all(isinstance(p, tuple) and
len(p) == 2 ...)`), and `malformed` is everything failing both checks. -/
inductive GridArg
  | coord (c : Int × Int)
  | coordList (cs : List (Int × Int))
  | malformed
deriving DecidableEq

/-- Result shape of `Array2D.getData`: a single payload for a tuple argument and a
list of payloads for a list argument. -/
inductive GetResult (α : Type)
  | one (d : Option α)
  | many (ds : List (Option α))
deriving DecidableEq

/-- Python `Array2D.getData`, all branches; second component is whether at least
one warning was emitted (the Python guards with `giveWarning` so at most one
aggregate warning is raised per call). -/
def Array2D.getData (g : Array2D α) : GridArg → GetResult α × Bool
  | .coord c =>
    let r := g.getData1 c
    (.one r.1, r.2)
  | .coordList cs =>
    let r := cs.foldl
      (fun (acc : List (Option α) × Bool) c =>
        match dictGet? g.matrix c with
        | some v => (acc.1 ++ [v], acc.2)
        | none => (acc.1 ++ [none], true))
      ([], false)
    (.many r.1, r.2)
  | .malformed => (.one none, true)

/-- The update loop of `Array2D.setData`: for each coordinate, assign when
`coord in self._matrix`, otherwise remember that a warning is due.  Returns
the updated grid and whether the single aggregate warning was emitted. -/
def Array2D.setList (g : Array2D α) (cs : List (Int × Int)) (v : Option α) :
    Array2D α × Bool :=
  cs.foldl
    (fun (acc : Array2D α × Bool) c =>
      if dictContains acc.1.matrix c then
        ({ acc.1 with matrix := dictSet acc.1.matrix c v }, acc.2)
      else (acc.1, true))
    (g, false)

/-- The exception message `Array2D.setData` raises on a malformed argument. -/
def setDataErrorMsg : String :=
  "ERROR: Passed an invalid argument type, expected Tuple[int,int] or list of Tuple[int,int]. No data updates completed"

/-- Python `Array2D.setData(xyPair, data)`: a tuple is wrapped into a singleton
list; a malformed argument raises (`Except.error`); otherwise the update
loop runs. -/
def Array2D.setDataE (g : Array2D α) (arg : GridArg) (v : Option α) :
    Except String (Array2D α × Bool) :=
  match arg with
  | .coord c => .ok (g.setList [c] v)
  | .coordList cs => .ok (g.setList cs v)
  | .malformed => .error setDataErrorMsg

/-- Python `Array2D.loadFrom(point)`: the body is the dict assignment
`self._matrix[point.getPos()] = point.getData()` inside a
`try/except KeyError`.  Dict assignment never raises `KeyError`, so the
handler is dead code and an out-of-range point inserts a fresh key. -/
def Array2D.loadFrom (g : Array2D α) (p : Point α) : Array2D α :=
  { g with matrix := dictSet g.matrix p.xyPair p.data }

/-- Python `Array2D.saveTo(point)`: `point.setData(self._matrix[point.getPos()])`,
with `except KeyError: warn(...)` leaving the point untouched. -/
def Array2D.saveTo (g : Array2D α) (p : Point α) : Point α × Bool :=
  match dictGet? g.matrix p.xyPair with
  | some v => ({ p with data := v }, false)
  | none => (p, true)

/-- Python `Array2D.findAny(*data)`: collects, in dict order, every key whose
value is one of the targets. -/
def Array2D.findAny [DecidableEq α] (g : Array2D α)
    (targets : List (Option α)) : List (Int × Int) :=
  g.matrix.foldl (fun acc p => if p.2 ∈ targets then acc ++ [p.1] else acc) []

/-- Python `Array2D.asPoint(xyPair)`: a `Point` carrying the cell's payload, or
`None` plus a warning when the coordinates raise `KeyError`. -/
def Array2D.asPoint (g : Array2D α) (c : Int × Int) :
    Option (Point α) × Bool :=
  match dictGet? g.matrix c with
  | some v => (some { xyPair := c, data := v }, false)
  | none => (none, true)

/-- Python `Array2D.__iter__`: yields every dict entry as a `Point`, in dict
(insertion) order. -/
def Array2D.iterAll (g : Array2D α) : List (Point α) :=
  g.matrix.map (fun p => { xyPair := p.1, data := p.2 })

/-- The dynamically-typed `cols` / `rows` argument of `Array2D.iterLocs`:
Python accepts `None` (defaulting to the full range), an `int` (wrapped into
a singleton list) or a `list[int]`; anything else raises. -/
inductive IterArg
  | all
  | int (i : Int)
  | list (l : List Int)
  | invalid
deriving DecidableEq

/-- The argument normalisation at the top of `Array2D.iterLocs`:
`int → [int]`, `None → range(extent)`, a list is kept, anything else is
rejected (`none` here, which `iterLocs` turns into the raise). -/
def toIdxList : IterArg → Int → Option (List Int)
  | .all, extent => some ((List.range extent.toNat).map (fun (i : Nat) => (i : Int)))
  | .int i, _ => some [i]
  | .list l, _ => some l
  | .invalid, _ => none

/-- The nesting of the two `for` loops in `Array2D.iterLocs`: rows outer and
columns inner normally, swapped under `transpose`. -/
def iterPairs (rows cols : List Int) (transpose : Bool) : List (Int × Int) :=
  if transpose then cols.flatMap (fun i => rows.map (fun j => (i, j)))
  else rows.flatMap (fun j => cols.map (fun i => (i, j)))

/-- One loop iteration of `Array2D.iterLocs`: yield the pair when
`i < self._cols and j < self._rows` (note: no lower bound is checked),
otherwise record that the single aggregate warning fired. -/
def Array2D.iterStep (g : Array2D α)
    (acc : List (Int × Int) × Bool) (c : Int × Int) :
    List (Int × Int) × Bool :=
  if c.1 < g.cols ∧ c.2 < g.rows then (acc.1 ++ [c], acc.2) else (acc.1, true)

/-- The exception message `Array2D.iterLocs` raises on a bad argument type. -/
def iterLocsErrorMsg : String :=
  "Invalid argument type, expected int or list of ints for cols and rows. No iterator function returned."

/-- Python `Array2D.iterLocs(cols, rows, transpose)`: normalises the arguments
(raising on a bad type), then yields the requested pairs that pass the
upper-bound check; the result is the yielded list together with the number
of warnings emitted (the `giveWarning` flag makes it 0 or 1). -/
def Array2D.iterLocs (g : Array2D α) (colsArg rowsArg : IterArg)
    (transpose : Bool) : Except String (List (Int × Int) × Nat) :=
  match toIdxList colsArg g.cols, toIdxList rowsArg g.rows with
  | some cols, some rows =>
    let r := (iterPairs rows cols transpose).foldl (g.iterStep) ([], false)
    .ok (r.1, if r.2 then 1 else 0)
  | _, _ => .error iterLocsErrorMsg

/-- Python `Point.getData`. -/
def Point.getData (p : Point α) : Option α := p.data

/-- Python `Point.setData`. -/
def Point.setData (p : Point α) (d : Option α) : Point α :=
  { p with data := d }

/-- Python `Point.getPos`. -/
def Point.getPos (p : Point α) : Int × Int := p.xyPair

/-- Python `Point.loadFrom(matrix)`: `self._data = matrix.getData(self._xyPair)` —
the tuple branch of `getData`, so an out-of-range point gets its data set to
`None` (and a warning is emitted by `getData`). -/
def Point.loadFrom (p : Point α) (g : Array2D α) : Point α × Bool :=
  let r := g.getData1 p.xyPair
  ({ p with data := r.1 }, r.2)

/-- Python `Point.saveTo(matrix)`: `matrix.setData(self._xyPair, self._data)` — the
tuple branch of `setData`, i.e. the update loop on a singleton list. -/
def Point.saveTo (p : Point α) (g : Array2D α) : Array2D α × Bool :=
  g.setList [p.xyPair] p.data

/-- Python `Point.setPos(xyPair, matrix)`: unconditional without a matrix;
validated against `[0, cols) × [0, rows)` with one. -/
def Point.setPos (p : Point α) (c : Int × Int) (m : Option (Array2D β)) :
    Point α × Bool :=
  match m with
  | none => ({ p with xyPair := c }, false)
  | some g =>
    if g.cols > c.1 ∧ g.rows > c.2 ∧ c.1 ≥ 0 ∧ c.2 ≥ 0 then
      ({ p with xyPair := c }, false)
    else (p, true)

/-- Python `Point.getMove(direction, moves)`: pure coordinate arithmetic; a missing
direction warns and returns the current position. -/
def Point.getMove (p : Point α) (d : Option Direction) (moves : Int) :
    (Int × Int) × Bool :=
  match d with
  | some .up => ((p.xyPair.1, p.xyPair.2 - moves), false)
  | some .down => ((p.xyPair.1, p.xyPair.2 + moves), false)
  | some .left => ((p.xyPair.1 - moves, p.xyPair.2), false)
  | some .right => ((p.xyPair.1 + moves, p.xyPair.2), false)
  | none => (p.xyPair, true)

/-- Python `Point.setMove(direction, moves, matrix)`, transcribed branch by branch.
Per direction the Python is
`if not matrix or <dest within the one checked bound>:` then
`if matrix and matrix.wrapAxis:` apply the move modulo the extent, else
apply it plainly; the outer `else` warns and leaves the point unmoved.  Note
that the wrap branch is only reachable when the checked bound already holds,
and that only one side of the axis is checked (`>= 0` for Up/Left,
`< extent` for Down/Right). -/
def Point.setMove (p : Point α) (d : Option Direction) (moves : Int)
    (matrix : Option (Array2D β)) : Point α × Bool :=
  match d with
  | some .up =>
    match matrix with
    | none => ({ p with xyPair := (p.xyPair.1, p.xyPair.2 - moves) }, false)
    | some m =>
      if p.xyPair.2 - moves ≥ 0 then
        if m.wrapY then
          ({ p with xyPair := (p.xyPair.1, (p.xyPair.2 - moves) % m.rows) }, false)
        else ({ p with xyPair := (p.xyPair.1, p.xyPair.2 - moves) }, false)
      else (p, true)
  | some .down =>
    match matrix with
    | none => ({ p with xyPair := (p.xyPair.1, p.xyPair.2 + moves) }, false)
    | some m =>
      if p.xyPair.2 + moves < m.rows then
        if m.wrapY then
          ({ p with xyPair := (p.xyPair.1, (p.xyPair.2 + moves) % m.rows) }, false)
        else ({ p with xyPair := (p.xyPair.1, p.xyPair.2 + moves) }, false)
      else (p, true)
  | some .left =>
    match matrix with
    | none => ({ p with xyPair := (p.xyPair.1 - moves, p.xyPair.2) }, false)
    | some m =>
      if p.xyPair.1 - moves ≥ 0 then
        if m.wrapX then
          ({ p with xyPair := ((p.xyPair.1 - moves) % m.cols, p.xyPair.2) }, false)
        else ({ p with xyPair := (p.xyPair.1 - moves, p.xyPair.2) }, false)
      else (p, true)
  | some .right =>
    match matrix with
    | none => ({ p with xyPair := (p.xyPair.1 + moves, p.xyPair.2) }, false)
    | some m =>
      if p.xyPair.1 + moves < m.cols then
        if m.wrapX then
          ({ p with xyPair := ((p.xyPair.1 + moves) % m.cols, p.xyPair.2) }, false)
        else ({ p with xyPair := (p.xyPair.1 + moves, p.xyPair.2) }, false)
      else (p, true)
  | none => (p, true)

/-- A coordinate lies in the grid's rectangle `[0, cols) × [0, rows)`. -/
def inRect (g : Array2D α) (c : Int × Int) : Prop :=
  0 ≤ c.1 ∧ c.1 < g.cols ∧ 0 ≤ c.2 ∧ c.2 < g.rows

instance (g : Array2D α) (c : Int × Int) : Decidable (inRect g c) := by
  unfold inRect
  infer_instance

/-- The grid invariant the spec states for the coordinate-to-data mapping:
the keys are exactly the rectangle's coordinates, in row-major order, with
no duplicates. -/
def Array2D.WF (g : Array2D α) : Prop :=
  g.matrix.map Prod.fst = rowMajorCoords g.cols g.rows

instance (g : Array2D α) : Decidable (g.WF) := by
  unfold Array2D.WF
  infer_instance

/-- Two grids agree on the four read-only accessors (`rows`, `cols`,
`wrapX`, `wrapY`). -/
def sameShape (g g' : Array2D α) : Prop :=
  g'.rows = g.rows ∧ g'.cols = g.cols ∧ g'.wrapX = g.wrapX ∧ g'.wrapY = g.wrapY

theorem dictGet?_dictSet_self (m : List ((Int × Int) × β)) (k : Int × Int)
    (v : β) : dictGet? (dictSet m k v) k = some v := by
  induction m with
  | nil => simp [dictSet, dictGet?]
  | cons p m ih =>
    by_cases h : p.1 = k <;> simp [dictSet, dictGet?, h, ih]

theorem dictGet?_dictSet_other (m : List ((Int × Int) × β)) (k k' : Int × Int)
    (v : β) (h : k' ≠ k) : dictGet? (dictSet m k v) k' = dictGet? m k' := by
  induction m with
  | nil =>
    simp only [dictSet, dictGet?]
    rw [if_neg (fun hh : k = k' => h hh.symm)]
  | cons p m ih =>
    simp only [dictSet]
    by_cases hp : p.1 = k
    · rw [if_pos hp]
      simp only [dictGet?]
      rw [if_neg (fun hh : k = k' => h hh.symm),
        if_neg (fun hh : p.1 = k' => h (hp.symm.trans hh).symm)]
    · rw [if_neg hp]
      simp only [dictGet?]
      by_cases hp' : p.1 = k'
      · rw [if_pos hp', if_pos hp']
      · rw [if_neg hp', if_neg hp']
        exact ih

theorem dictGet?_eq_none_iff (m : List ((Int × Int) × β)) (k : Int × Int) :
    dictGet? m k = none ↔ k ∉ m.map Prod.fst := by
  induction m with
  | nil => simp [dictGet?]
  | cons p m ih =>
    simp only [dictGet?, List.map_cons, List.mem_cons]
    by_cases h : p.1 = k
    · simp [h]
    · rw [if_neg h, ih]
      constructor
      · rintro hk (hm | hm)
        · exact h hm.symm
        · exact hk hm
      · exact fun hk hm => hk (Or.inr hm)

theorem dictContains_iff (m : List ((Int × Int) × β)) (k : Int × Int) :
    dictContains m k = true ↔ k ∈ m.map Prod.fst := by
  induction m with
  | nil => simp [dictContains]
  | cons p m ih =>
    simp only [dictContains, List.map_cons, List.mem_cons]
    by_cases h : p.1 = k
    · simp [h]
    · rw [if_neg h, ih]
      constructor
      · exact fun hm => Or.inr hm
      · rintro (hm | hm)
        · exact absurd hm.symm h
        · exact hm

theorem mem_rowMajorCoords (cols rows : Int) (c : Int × Int) :
    c ∈ rowMajorCoords cols rows ↔
      0 ≤ c.1 ∧ c.1 < cols ∧ 0 ≤ c.2 ∧ c.2 < rows := by
  unfold rowMajorCoords
  simp only [List.mem_flatMap, List.mem_map, List.mem_range]
  constructor
  · rintro ⟨j, hj, i, hi, rfl⟩
    dsimp only
    omega
  · rintro ⟨h1, h2, h3, h4⟩
    refine ⟨c.2.toNat, by omega, c.1.toNat, by omega, ?_⟩
    obtain ⟨x, y⟩ := c
    simp only [Prod.mk.injEq]
    dsimp only at h1 h2 h3 h4
    omega

theorem length_rowMajorCoords (cols rows : Int) :
    (rowMajorCoords cols rows).length = cols.toNat * rows.toNat := by
  unfold rowMajorCoords
  rw [List.length_flatMap]
  induction rows.toNat with
  | zero => simp
  | succ n ih =>
    rw [List.range_succ, List.map_append, List.sum_append, ih]
    simp [Function.comp, Nat.mul_succ]

theorem pairwise_rowMajorCoords (cols rows : Int) :
    (rowMajorCoords cols rows).Pairwise
      (fun a b => a.2 < b.2 ∨ (a.2 = b.2 ∧ a.1 < b.1)) := by
  unfold rowMajorCoords
  generalize rows.toNat = n
  induction n with
  | zero => simp
  | succ n ih =>
    rw [List.range_succ, List.flatMap_append, List.pairwise_append]
    refine ⟨ih, ?_, ?_⟩
    · simp only [List.flatMap_cons, List.flatMap_nil, List.append_nil]
      rw [List.pairwise_map]
      refine List.Pairwise.imp ?_ (List.pairwise_lt_range cols.toNat)
      intro a b hab
      right
      dsimp only
      exact ⟨rfl, by omega⟩
    · intro a ha b hb
      simp only [List.mem_flatMap, List.mem_map, List.mem_range,
        List.flatMap_cons, List.flatMap_nil, List.append_nil] at ha hb
      obtain ⟨j, hj, i, hi, rfl⟩ := ha
      obtain ⟨i', hi', rfl⟩ := hb
      left
      dsimp only
      omega

theorem nodup_rowMajorCoords (cols rows : Int) :
    (rowMajorCoords cols rows).Nodup := by
  refine List.Pairwise.imp ?_ (pairwise_rowMajorCoords cols rows)
  intro a b h heq
  subst heq
  rcases h with h | ⟨h1, h2⟩ <;> omega

theorem mk?_ok_elim {cols rows : Int} {d : Option α} {wx wy : Bool}
    {g : Array2D α} (h : Array2D.mk? cols rows d wx wy = .ok g) :
    1 ≤ cols ∧ 1 ≤ rows ∧
    g = { rows := rows, cols := cols, wrapX := wx, wrapY := wy,
          matrix := (rowMajorCoords cols rows).map (fun c => (c, d)) } := by
  unfold Array2D.mk? at h
  split at h
  · exact Except.noConfusion h
  · rename_i hcond
    refine ⟨by omega, by omega, ?_⟩
    cases h
    rfl

/-- C1: the spec claims the mapping always holds exactly one entry per
coordinate of the rectangle and that `loadFromCursor` preserves this.  The
code violates it: `Array2D.loadFrom` on a `1 × 1` grid with a point at
`(5, 5)` inserts the key `(5, 5)`, a coordinate outside the rectangle (the
`except KeyError` guard is dead code because dict assignment cannot raise
`KeyError`, contradicting its own warning text "Matrix data was not
updated"). -/
theorem C1_loadFrom_breaks_invariant :
    ((Array2D.mk? 1 1 (some (0 : Int)) false false).map (fun g =>
        (g.loadFrom { xyPair := (5, 5), data := some 7 }).matrix.map Prod.fst))
      = .ok [(0, 0), (5, 5)] ∧
    ((5 : Int), (5 : Int)) ∉ rowMajorCoords 1 1 := by
  exact ⟨rfl, by decide⟩

/-- C2: the spec claims that with `wrapX = true` a cursor at `(0, y)` moving
Left by 1 on a grid of width `W` wraps to `(W-1, y)`.  The code violates
it: the wrap branch of `Point.setMove` sits under the bounds check, so the
move is rejected (warning, coordinate unchanged) even though `wrapX` is
set.  Evaluated here at the failing input: width-3 grid with `wrapX`,
point `(0, 0)`, Left by 1 — the point stays at `(0, 0)` and warns, instead
of wrapping to `(2, 0)`. -/
theorem C2_wrap_left_rejected :
    ((Array2D.mk? 3 2 (some (0 : Int)) true false).map (fun g =>
        let r := Point.setMove { xyPair := (0, 0), data := (none : Option Int) }
          (some .left) 1 (some g)
        (r.1.xyPair, r.2)))
      = .ok ((0, 0), true) := rfl

/-- C3: the spec claims `Point.saveTo` / `Point.loadFrom` are equivalent to
`Array2D.loadFrom` / `Array2D.saveTo` with the same error behavior.  The
code violates it, shown here on a `1 × 1` grid and a point at the
out-of-range coordinate `(5, 5)` carrying payload `7`: `Point.saveTo`
leaves the grid's mapping at its single entry, while `Array2D.loadFrom`
inserts a second, out-of-rectangle entry; and `Point.loadFrom` overwrites
the point's payload with the absent value, while `Array2D.saveTo` leaves
the payload at `7`. -/
theorem C3_sync_ops_not_equivalent :
    ((Array2D.mk? 1 1 (some (0 : Int)) false false).map (fun g =>
        let p : Point Int := { xyPair := (5, 5), data := some 7 }
        (((Point.saveTo p g).1.matrix, (g.loadFrom p).matrix),
         ((Point.loadFrom p g).1.data, (g.saveTo p).1.data))))
      = .ok (([((0, 0), some 0)], [((0, 0), some 0), ((5, 5), some 7)]),
             (none, some 7)) := rfl

/-- C4 counterexample: the claim says every usage error — including an
invalid argument shape passed to `setData` or `iterateCoordinates` — is
reported non-fatally and the operation degrades gracefully.  In the code
both of these `raise` an exception instead (modelled by `Except.error`),
aborting the calling program. -/
theorem C4_malformed_args_raise :
    ((Array2D.mk? 2 2 (some (0 : Int)) false false).map (fun g =>
        (g.setDataE .malformed (some 1), g.iterLocs .invalid .all false)))
      = .ok (.error setDataErrorMsg, .error iterLocsErrorMsg) := rfl

/-- C4 amended: a missing/invalid direction passed to `getMove` or
`setMove` warns and leaves the coordinate unchanged, and an invalid
argument shape passed to `getData` warns and returns the absent value —
these degrade gracefully as claimed; but a malformed coordinate argument
passed to `setData`, and an invalid cols/rows argument passed to
`iterLocs`, raise a fatal exception (no update is performed and nothing is
yielded) rather than degrading gracefully. -/
theorem C4_amended_usage_errors (g : Array2D α) (p : Point α) (v : Option α)
    (m : Int) :
    Point.getMove p none m = (p.xyPair, true) ∧
    Point.setMove p none m (some g) = (p, true) ∧
    g.getData .malformed = (.one none, true) ∧
    g.setDataE .malformed v = .error setDataErrorMsg ∧
    g.iterLocs .invalid .all false = .error iterLocsErrorMsg := by
  refine ⟨rfl, rfl, rfl, rfl, rfl⟩

/-- C8 counterexample: the claim says any requested column/row index
outside the grid's bounds — including negative indices — is skipped.  The
code only checks the upper bounds (`i < self._cols and j < self._rows`), so
on a `2 × 2` grid the request `cols = [-1], rows = [0]` yields the
coordinate `(-1, 0)`, which lies outside the rectangle, and emits no
warning at all. -/
theorem C8_negative_index_yielded :
    ((Array2D.mk? 2 2 (some (0 : Int)) false false).map (fun g =>
        g.iterLocs (.list [-1]) (.list [0]) false))
      = .ok (.ok ([(-1, 0)], 0)) ∧
    ((-1 : Int), (0 : Int)) ∉ rowMajorCoords 2 2 := by
  exact ⟨rfl, by decide⟩

/-- C5: on a well-formed grid, for every out-of-range coordinate `c`,
`getData` (both the raw cell read and the full dispatch) returns the absent
value and reports a diagnostic instead of crashing, and `setData` leaves
the whole grid unchanged and reports a diagnostic. -/
theorem C5_out_of_range_get_set (g : Array2D α) (c : Int × Int)
    (v : Option α) (hwf : g.WF) (hc : ¬ inRect g c) :
    g.getData1 c = (none, true) ∧
    g.getData (.coord c) = (.one none, true) ∧
    g.setDataE (.coord c) v = .ok (g, true) := by
  have hmem : c ∉ g.matrix.map Prod.fst := by
    rw [hwf, mem_rowMajorCoords]
    exact hc
  have hget : dictGet? g.matrix c = none := (dictGet?_eq_none_iff _ _).mpr hmem
  have hcont : dictContains g.matrix c = false := by
    cases h : dictContains g.matrix c
    · rfl
    · exact absurd ((dictContains_iff _ _).mp h) hmem
  refine ⟨?_, ?_, ?_⟩
  · unfold Array2D.getData1
    rw [hget]
  · dsimp only [Array2D.getData, Array2D.getData1]
    rw [hget]
  · unfold Array2D.setDataE Array2D.setList
    simp [hcont]

/-- C5 witness: the theorem applied to the (well-formed) `1 × 1` grid and
the out-of-range coordinate `(5, 5)`. -/
theorem C5_witness :
    ∃ g : Array2D Int, g.WF ∧ ¬ inRect g (5, 5) ∧
      (g.getData1 (5, 5) = (none, true) ∧
       g.getData (.coord (5, 5)) = (.one none, true) ∧
       g.setDataE (.coord (5, 5)) (some 1) = .ok (g, true)) :=
  ⟨{ rows := 1, cols := 1, wrapX := false, wrapY := false,
     matrix := [((0, 0), some 0)] },
   by decide, by decide,
   C5_out_of_range_get_set _ (5, 5) (some 1) (by decide) (by decide)⟩

/-- C6: for `cols ≥ 1` and `rows ≥ 1` construction succeeds and yields a
mapping with exactly `cols × rows` entries whose keys are precisely the
rectangle's coordinates and whose values are all the supplied default
payload; for `cols < 1` or `rows < 1` construction fails with the
construction error and produces no grid. -/
theorem C6_construction (cols rows : Int) (d : Option α) (wx wy : Bool) :
    (1 ≤ cols ∧ 1 ≤ rows →
      ∃ g : Array2D α, Array2D.mk? cols rows d wx wy = .ok g ∧
        g.matrix.length = cols.toNat * rows.toNat ∧
        g.matrix.map Prod.fst = rowMajorCoords cols rows ∧
        ∀ e ∈ g.matrix, e.2 = d) ∧
    (cols < 1 ∨ rows < 1 →
      Array2D.mk? cols rows d wx wy =
        .error "Cannot initiate an Array2D with less than 1 row and/or column") := by
  constructor
  · rintro ⟨h1, h2⟩
    refine ⟨{ rows := rows, cols := cols, wrapX := wx, wrapY := wy,
              matrix := (rowMajorCoords cols rows).map (fun c => (c, d)) },
            ?_, ?_, ?_, ?_⟩
    · unfold Array2D.mk?
      rw [if_neg (by omega)]
    · rw [List.length_map]
      exact length_rowMajorCoords cols rows
    · have hcomp : (Prod.fst ∘ fun c : Int × Int => (c, d)) = id := rfl
      rw [List.map_map, hcomp, List.map_id]
    · intro e he
      rw [List.mem_map] at he
      obtain ⟨c, _, rfl⟩ := he
      rfl
  · intro h
    unfold Array2D.mk?
    rw [if_pos h]

/-- C6 witness: the success half applied at `cols = 3`, `rows = 2`. -/
theorem C6_witness :
    ∃ g : Array2D Int, Array2D.mk? 3 2 (some 0) false false = .ok g ∧
      g.matrix.length = (3 : Int).toNat * (2 : Int).toNat ∧
      g.matrix.map Prod.fst = rowMajorCoords 3 2 ∧
      ∀ e ∈ g.matrix, e.2 = some 0 :=
  (C6_construction 3 2 (some 0) false false).1 ⟨by decide, by decide⟩

/-- C7: on a well-formed grid, for every in-range coordinate `c` and
payload `v`, `setData (c, v)` succeeds without a warning and afterwards
reading `c` gives `v` while every other coordinate reads exactly as
before. -/
theorem C7_set_then_get (g : Array2D α) (c : Int × Int) (v : Option α)
    (hwf : g.WF) (hc : inRect g c) :
    ∃ g' : Array2D α,
      g.setDataE (.coord c) v = .ok (g', false) ∧
      g'.getData1 c = (v, false) ∧
      ∀ c', c' ≠ c → g'.getData1 c' = g.getData1 c' := by
  have hmem : c ∈ g.matrix.map Prod.fst := by
    rw [hwf, mem_rowMajorCoords]
    exact hc
  have hcont : dictContains g.matrix c = true := (dictContains_iff _ _).mpr hmem
  refine ⟨{ g with matrix := dictSet g.matrix c v }, ?_, ?_, ?_⟩
  · unfold Array2D.setDataE Array2D.setList
    simp [hcont]
  · unfold Array2D.getData1
    rw [dictGet?_dictSet_self]
  · intro c' hne
    unfold Array2D.getData1
    rw [dictGet?_dictSet_other _ _ _ _ hne]

/-- C7 witness: the spec's own example — a `3 × 2` grid of zeros, then
`setData((1,1), 9)`: reading `(1,1)` gives `9` and every other coordinate
still reads `0`. -/
theorem C7_witness :
    ∃ g' : Array2D Int,
      Array2D.setDataE
        ({ rows := 2, cols := 3, wrapX := false, wrapY := false,
           matrix := [((0, 0), some 0), ((1, 0), some 0), ((2, 0), some 0),
                      ((0, 1), some 0), ((1, 1), some 0), ((2, 1), some 0)] } : Array2D Int)
        (.coord (1, 1)) (some 9) = .ok (g', false) ∧
      g'.getData1 (1, 1) = (some 9, false) ∧
      ∀ c', c' ≠ (1, 1) →
        g'.getData1 c' =
          Array2D.getData1
            ({ rows := 2, cols := 3, wrapX := false, wrapY := false,
               matrix := [((0, 0), some 0), ((1, 0), some 0), ((2, 0), some 0),
                          ((0, 1), some 0), ((1, 1), some 0), ((2, 1), some 0)] } : Array2D Int)
            c' :=
  C7_set_then_get _ (1, 1) (some 9) (by decide) (by decide)

theorem iterStep_foldl (g : Array2D α) (l : List (Int × Int))
    (acc : List (Int × Int)) (b : Bool) :
    l.foldl g.iterStep (acc, b) =
      (acc ++ l.filter (fun c => decide (c.1 < g.cols ∧ c.2 < g.rows)),
       b || l.any (fun c => decide (¬ (c.1 < g.cols ∧ c.2 < g.rows)))) := by
  induction l generalizing acc b with
  | nil => simp
  | cons c cs ih =>
    simp only [List.foldl_cons, List.filter_cons, List.any_cons,
      Array2D.iterStep]
    by_cases h : c.1 < g.cols ∧ c.2 < g.rows
    · rw [if_pos h, ih]
      simp [h, List.append_assoc]
    · rw [if_neg h, ih]
      simp [h]

/-- C8 amended: `iterLocs` yields, in the requested loop-nesting order
(rows outer / columns inner, swapped under `transpose`), exactly those
requested pairs passing the upper-bound check `i < cols and j < rows` —
so indices at or above the extent are skipped, but negative indices are
not filtered and come out as coordinates outside the rectangle — and the
number of warnings emitted is at most one per call, zero exactly when
nothing was skipped. -/
theorem C8_amended_iterLocs (g : Array2D α) (colsArg rowsArg : IterArg)
    (t : Bool) (cs rs : List Int)
    (hc : toIdxList colsArg g.cols = some cs)
    (hr : toIdxList rowsArg g.rows = some rs) :
    ∃ out warns, g.iterLocs colsArg rowsArg t = .ok (out, warns) ∧
      out = (iterPairs rs cs t).filter
              (fun c => decide (c.1 < g.cols ∧ c.2 < g.rows)) ∧
      warns ≤ 1 ∧
      (warns = 0 ↔ ∀ c ∈ iterPairs rs cs t, c.1 < g.cols ∧ c.2 < g.rows) := by
  unfold Array2D.iterLocs
  rw [hc, hr]
  dsimp only
  rw [iterStep_foldl]
  simp only [List.nil_append, Bool.false_or]
  refine ⟨_, _, rfl, rfl, ?_, ?_⟩
  · split <;> omega
  · cases hany : (iterPairs rs cs t).any
        (fun c => decide (¬ (c.1 < g.cols ∧ c.2 < g.rows)))
    · simp only [List.any_eq_false, decide_eq_true_eq, not_not] at hany
      simp only [Bool.false_eq_true, if_false]
      exact ⟨fun _ => hany, fun _ => trivial⟩
    · simp only [List.any_eq_true, decide_eq_true_eq] at hany
      obtain ⟨c, hcm, hcp⟩ := hany
      simp only [if_true]
      constructor
      · intro h01
        exact absurd h01 (by omega)
      · intro hall
        exact absurd (hall c hcm) hcp

/-- C8 witness: the theorem applied to a `2 × 2` grid with all columns and
the row request `[0, 5]`: row 5 is skipped with a single warning. -/
theorem C8_witness :
    ∃ out warns,
      Array2D.iterLocs
        ({ rows := 2, cols := 2, wrapX := false, wrapY := false,
           matrix := [((0, 0), some 0), ((1, 0), some 0),
                      ((0, 1), some 0), ((1, 1), some 0)] } : Array2D Int)
        .all (.list [0, 5]) false = .ok (out, warns) ∧
      out = (iterPairs [0, 5] [0, 1] false).filter
              (fun c => decide (c.1 < (2 : Int) ∧ c.2 < (2 : Int))) ∧
      warns ≤ 1 ∧
      (warns = 0 ↔
        ∀ c ∈ iterPairs [0, 5] [0, 1] false,
          c.1 < (2 : Int) ∧ c.2 < (2 : Int)) :=
  C8_amended_iterLocs _ .all (.list [0, 5]) false [0, 1] [0, 5]
    (by decide) (by decide)

theorem iterAll_map_xyPair (g : Array2D α) :
    g.iterAll.map Point.xyPair = g.matrix.map Prod.fst := by
  unfold Array2D.iterAll
  rw [List.map_map]
  rfl

/-- C9: a constructed `cols × rows` grid iterates exactly
`cols * rows` coordinate-payload pairs whose coordinates are pairwise
distinct, cover exactly the rectangle, and appear in row-major order
(strictly increasing in `y`, and in `x` within a row). -/
theorem C9_iterAll_row_major (cols rows : Int) (d : Option α) (wx wy : Bool)
    (g : Array2D α) (h : Array2D.mk? cols rows d wx wy = .ok g) :
    g.iterAll.length = cols.toNat * rows.toNat ∧
    (g.iterAll.map Point.xyPair).Nodup ∧
    (∀ c, c ∈ g.iterAll.map Point.xyPair ↔ inRect g c) ∧
    (g.iterAll.map Point.xyPair).Pairwise
      (fun a b => a.2 < b.2 ∨ (a.2 = b.2 ∧ a.1 < b.1)) := by
  obtain ⟨h1, h2, rfl⟩ := mk?_ok_elim h
  have hkeys : (Array2D.iterAll
      { rows := rows, cols := cols, wrapX := wx, wrapY := wy,
        matrix := (rowMajorCoords cols rows).map (fun c => (c, d)) } :
      List (Point α)).map Point.xyPair = rowMajorCoords cols rows := by
    rw [iterAll_map_xyPair]
    dsimp only
    rw [List.map_map]
    have hcomp : (Prod.fst ∘ fun c : Int × Int => (c, d)) = id := rfl
    rw [hcomp, List.map_id]
  refine ⟨?_, ?_, ?_, ?_⟩
  · unfold Array2D.iterAll
    dsimp only
    rw [List.length_map, List.length_map]
    exact length_rowMajorCoords cols rows
  · rw [hkeys]
    exact nodup_rowMajorCoords cols rows
  · intro c
    rw [hkeys, mem_rowMajorCoords]
    unfold inRect
    exact Iff.rfl
  · rw [hkeys]
    exact pairwise_rowMajorCoords cols rows

/-- C9 witness: the theorem applied to the constructed `1 × 1` grid. -/
theorem C9_witness :
    ({ rows := 1, cols := 1, wrapX := false, wrapY := false,
       matrix := [((0, 0), some 0)] } : Array2D Int).iterAll.length
        = (1 : Int).toNat * (1 : Int).toNat ∧
    (({ rows := 1, cols := 1, wrapX := false, wrapY := false,
        matrix := [((0, 0), some 0)] } : Array2D Int).iterAll.map
          Point.xyPair).Nodup ∧
    (∀ c, c ∈ ({ rows := 1, cols := 1, wrapX := false, wrapY := false,
                 matrix := [((0, 0), some 0)] } : Array2D Int).iterAll.map
                   Point.xyPair ↔
      inRect ({ rows := 1, cols := 1, wrapX := false, wrapY := false,
                matrix := [((0, 0), some 0)] } : Array2D Int) c) ∧
    (({ rows := 1, cols := 1, wrapX := false, wrapY := false,
        matrix := [((0, 0), some 0)] } : Array2D Int).iterAll.map
          Point.xyPair).Pairwise
      (fun a b => a.2 < b.2 ∨ (a.2 = b.2 ∧ a.1 < b.1)) :=
  C9_iterAll_row_major 1 1 (some 0) false false _ rfl

theorem sameShape_trans {g1 g2 g3 : Array2D α} (h12 : sameShape g1 g2)
    (h23 : sameShape g2 g3) : sameShape g1 g3 :=
  ⟨h23.1.trans h12.1, h23.2.1.trans h12.2.1,
   h23.2.2.1.trans h12.2.2.1, h23.2.2.2.trans h12.2.2.2⟩

theorem foldl_setStep_sameShape (v : Option α) (cs : List (Int × Int)) :
    ∀ acc : Array2D α × Bool,
      sameShape acc.1 (cs.foldl
        (fun (acc : Array2D α × Bool) c =>
          if dictContains acc.1.matrix c then
            ({ acc.1 with matrix := dictSet acc.1.matrix c v }, acc.2)
          else (acc.1, true)) acc).1 := by
  induction cs with
  | nil => exact fun acc => ⟨rfl, rfl, rfl, rfl⟩
  | cons c cs ih =>
    intro acc
    rw [List.foldl_cons]
    refine sameShape_trans ?_ (ih _)
    by_cases hc : dictContains acc.1.matrix c
    · rw [if_pos hc]
      exact ⟨rfl, rfl, rfl, rfl⟩
    · rw [if_neg hc]
      exact ⟨rfl, rfl, rfl, rfl⟩

theorem setList_sameShape (g : Array2D α) (cs : List (Int × Int))
    (v : Option α) : sameShape g (g.setList cs v).1 :=
  foldl_setStep_sameShape v cs (g, false)

/-- C10: the four read-only accessors report exactly the values fixed at
construction, and every grid-producing operation — the `setData` update
loop, `loadFrom`, and the cursor-side `saveTo` — leaves all four unchanged
(the remaining operations return no grid at all in this functional
embedding, so they cannot alter it). -/
theorem C10_accessors_fixed (cols rows : Int) (d : Option α) (wx wy : Bool)
    (g₀ g : Array2D α) (cs : List (Int × Int)) (v : Option α) (p : Point α)
    (h : Array2D.mk? cols rows d wx wy = .ok g₀) :
    (g₀.cols = cols ∧ g₀.rows = rows ∧ g₀.wrapX = wx ∧ g₀.wrapY = wy) ∧
    sameShape g (g.setList cs v).1 ∧
    sameShape g (g.loadFrom p) ∧
    sameShape g (Point.saveTo p g).1 := by
  obtain ⟨h1, h2, rfl⟩ := mk?_ok_elim h
  exact ⟨⟨rfl, rfl, rfl, rfl⟩, setList_sameShape g cs v,
    ⟨rfl, rfl, rfl, rfl⟩, setList_sameShape g [p.xyPair] p.data⟩

/-- C10 witness: the theorem applied to the constructed `1 × 1` grid, an
update over `[(0,0), (9,9)]`, and a point at `(9, 9)`. -/
theorem C10_witness :
    (({ rows := 1, cols := 1, wrapX := false, wrapY := false,
        matrix := [((0, 0), some 0)] } : Array2D Int).cols = 1 ∧
     ({ rows := 1, cols := 1, wrapX := false, wrapY := false,
        matrix := [((0, 0), some 0)] } : Array2D Int).rows = 1 ∧
     ({ rows := 1, cols := 1, wrapX := false, wrapY := false,
        matrix := [((0, 0), some 0)] } : Array2D Int).wrapX = false ∧
     ({ rows := 1, cols := 1, wrapX := false, wrapY := false,
        matrix := [((0, 0), some 0)] } : Array2D Int).wrapY = false) ∧
    sameShape ({ rows := 1, cols := 1, wrapX := false, wrapY := false,
                 matrix := [((0, 0), some 0)] } : Array2D Int)
      (Array2D.setList ({ rows := 1, cols := 1, wrapX := false, wrapY := false,
                          matrix := [((0, 0), some 0)] } : Array2D Int)
        [(0, 0), (9, 9)] (some 5)).1 ∧
    sameShape ({ rows := 1, cols := 1, wrapX := false, wrapY := false,
                 matrix := [((0, 0), some 0)] } : Array2D Int)
      (Array2D.loadFrom ({ rows := 1, cols := 1, wrapX := false, wrapY := false,
                           matrix := [((0, 0), some 0)] } : Array2D Int)
        { xyPair := (9, 9), data := some 7 }) ∧
    sameShape ({ rows := 1, cols := 1, wrapX := false, wrapY := false,
                 matrix := [((0, 0), some 0)] } : Array2D Int)
      (Point.saveTo ({ xyPair := (9, 9), data := some 7 } : Point Int)
        ({ rows := 1, cols := 1, wrapX := false, wrapY := false,
           matrix := [((0, 0), some 0)] } : Array2D Int)).1 :=
  C10_accessors_fixed 1 1 (some 0) false false _ _ [(0, 0), (9, 9)] (some 5)
    ({ xyPair := (9, 9), data := some 7 } : Point Int) rfl

end A2D
